import Mathlib

/-!
Verification development for the Selling_bot repository (Telegram VPN-subscription
bot).  The definitions below are a shallow embedding of the Python source:

* `src/app/database.py`  — the SQLite persistence layer (`users`, `temp_configs`,
  `payments` tables and the operations on them);
* `src/app/wireguard.py` — the local WireGuard peer-table strategy
  (`is_ip_in_use`, `get_next_available_ip`, `add_peer`);
* `src/app/bot_logic.py` — the access state machine
  (`grant_subscription`, `grant_temp_config`, `deactivate_user_temp_config`);
* `src/main.py` and `src/app.py` — the payment webhook / redirect handlers.

Timestamps are abstracted as integers (an abstract instant; `+ d` stands for
adding `d` days for subscriptions, `+ 10` for the ten-minute trial TTL).
Subprocess calls, file reads and the WG-Easy management API are modelled by
explicit success flags and event lists: a `Bool` flag records whether the call
succeeds, and a `WgEvent` list records which backend calls were invoked.
-/

namespace SellingBot

/-! ## Persistence layer (`src/app/database.py`) -/

/-- A row of the `users` table (database.py lines 21-34). -/
structure UserRow where
  telegram_id : Nat
  username : String
  first_name : String
  subscription_end_date : Option Int
  subscription_active : Bool
  wireguard_config : Option String
  client_ip : Option String
  wg_easy_client_id : Option String
deriving DecidableEq, Repr

/-- A row of the `temp_configs` table (database.py lines 52-65); `user_id`
carries a UNIQUE constraint. -/
structure TempRow where
  user_id : Nat
  config_text : String
  client_ip : String
  public_key : String
  wg_easy_client_id : Option String
  created_at : Int
  expires_at : Int
  is_active : Bool
deriving DecidableEq, Repr

/-- A row of the `payments` table (database.py lines 37-49); `order_id` is
UNIQUE. -/
structure PaymentRow where
  user_id : Nat
  amount : Int
  currency : String
  payment_system : String
  order_id : String
  status : String
  created_at : Int
deriving DecidableEq, Repr

/-- `config.SUBSCRIPTION_DAYS` (config.py line 26). -/
def SUBSCRIPTION_DAYS : Int := 30

/-- `database.update_user_subscription` (database.py lines 138-154): sets
`subscription_end_date` to `datetime.now() + timedelta(days=days)`, overwrites
the config, ip and WG-Easy client id, and sets `subscription_active = 1` for
the row with the given `telegram_id`. -/
def update_user_subscription (users : List UserRow) (now : Int) (user_id : Nat)
    (days : Int) (config_text : String) (client_ip : String)
    (wg_easy_client_id : Option String) : List UserRow :=
  users.map fun u =>
    if u.telegram_id == user_id then
      { u with subscription_end_date := some (now + days),
               wireguard_config := some config_text,
               client_ip := some client_ip,
               wg_easy_client_id := wg_easy_client_id,
               subscription_active := true }
    else u

/-- `database.add_temp_config` (database.py lines 156-182): first `DELETE FROM
temp_configs WHERE user_id = ?`, then INSERT a fresh row with
`expires_at = now + 10 minutes` and `is_active = 1`, in one transaction. -/
def add_temp_config (tcs : List TempRow) (now : Int) (user_id : Nat)
    (config_text : String) (client_ip : String) (public_key : String)
    (wg_easy_client_id : Option String) : List TempRow :=
  tcs.filter (fun r => !(r.user_id == user_id)) ++
    [⟨user_id, config_text, client_ip, public_key, wg_easy_client_id,
      now, now + 10, true⟩]

/-- `database.remove_temp_config` (database.py lines 184-199). -/
def remove_temp_config (tcs : List TempRow) (user_id : Nat) : List TempRow :=
  tcs.filter (fun r => !(r.user_id == user_id))

/-- `database.deactivate_temp_config` (database.py lines 235-244):
`UPDATE temp_configs SET is_active = 0 WHERE user_id = ? AND is_active = 1`. -/
def deactivate_temp_config (tcs : List TempRow) (user_id : Nat) : List TempRow :=
  tcs.map fun r =>
    if r.user_id == user_id && r.is_active then { r with is_active := false }
    else r

/-- `database.get_temp_config` (database.py lines 201-233): `SELECT ... WHERE
user_id = ?`, `fetchone()` (the UNIQUE constraint makes the row unique). -/
def get_temp_config (tcs : List TempRow) (user_id : Nat) : Option TempRow :=
  tcs.find? (fun r => r.user_id == user_id)

/-- `database.get_payment_by_order_id` (database.py lines 406-429). -/
def get_payment_by_order_id (ps : List PaymentRow) (order_id : String) :
    Option PaymentRow :=
  ps.find? (fun p => p.order_id == order_id)

/-- `database.update_payment_status` (database.py lines 386-404). -/
def update_payment_status (ps : List PaymentRow) (order_id status : String) :
    List PaymentRow :=
  ps.map fun p => if p.order_id == order_id then { p with status := status } else p

/-- The sequence of trial-grant store operations reachable from the bot logic:
`add_temp_config`, `remove_temp_config`, `deactivate_temp_config` (SQLite
serialises these writers, so a history is a sequence). -/
inductive TempOp where
  | add (now : Int) (uid : Nat) (cfg ip pk : String) (cid : Option String)
  | remove (uid : Nat)
  | deactivate (uid : Nat)
deriving Repr

/-- Apply one store operation on the `temp_configs` table. -/
def applyTempOp (tcs : List TempRow) : TempOp → List TempRow
  | TempOp.add now uid cfg ip pk cid => add_temp_config tcs now uid cfg ip pk cid
  | TempOp.remove uid => remove_temp_config tcs uid
  | TempOp.deactivate uid => deactivate_temp_config tcs uid

/-- Run a sequence of trial-grant store operations from the empty table. -/
def runTempOps (ops : List TempOp) : List TempRow :=
  ops.foldl applyTempOp []

/-- Number of `temp_configs` rows held by a user. -/
def tempRowCount (tcs : List TempRow) (uid : Nat) : Nat :=
  tcs.countP (fun r => r.user_id == uid)

/-- Number of *active* `temp_configs` rows held by a user. -/
def activeTempCount (tcs : List TempRow) (uid : Nat) : Nat :=
  tcs.countP (fun r => r.user_id == uid && r.is_active)

/-! ## Local peer-table strategy (`src/app/wireguard.py`)

The WireGuard backend state is modelled by the parsed contents of the two
sources the code consults: the live peer table (`sudo wg show wg0 ...`) and the
on-disk `/etc/wireguard/wg0.conf` peer sections.  `runtimeOk`, `configExists`
and `configReadOk` model whether the subprocess call succeeds, whether the
config file exists, and whether reading it succeeds; in the source a failing
call raises and is handled by the surrounding `try`/`except`. -/

/-- The two state sources consulted by `src/app/wireguard.py`, plus the
outcome flags of the calls that read them.  `runtimePeers`/`configPeers` are
lists of `(public_key, allowed_ip)` pairs.  The live query
`subprocess.run([sudo, wg, "show", ...])` is issued without `check=True`, so
it has two distinct failure modes: `runtimeRaises` models a raised exception
(e.g. `TimeoutExpired`), while `runtimeExitOk = false` models a non-zero exit
of the command, which raises nothing and leaves `result.stdout` empty. -/
structure WgState where
  runtimePeers : List (String × String)
  configPeers : List (String × String)
  runtimeRaises : Bool
  runtimeExitOk : Bool
  configExists : Bool
  configReadOk : Bool
deriving DecidableEq, Repr

/-- Addresses actually held in the live peer table. -/
def runtimeIps (s : WgState) : List String := s.runtimePeers.map Prod.snd

/-- Addresses in the `AllowedIPs` lines of the on-disk config file. -/
def configIps (s : WgState) : List String := s.configPeers.map Prod.snd

/-- The addresses a completed (non-raising) `wg show` call reports: the live
peer table on exit 0, nothing on a non-zero exit (empty `stdout`). -/
def liveShownIps (s : WgState) : List String :=
  if s.runtimeExitOk then runtimeIps s else []

/-- `wireguard.list_peers` (wireguard.py lines 477-490): public keys from
`wg show wg0 peers`; an exception yields `[]`, and a non-zero exit yields
empty output, hence also `[]`. -/
def list_peers (s : WgState) : List String :=
  if !s.runtimeRaises && s.runtimeExitOk then s.runtimePeers.map Prod.fst else []

/-- The pool check `ip.startswith('10.10.10.')` (wireguard.py line 412). -/
def isPoolIp (ip : String) : Bool := ip.startsWith "10.10.10."

/-- The pool address `f"10.10.10.{i}"` (wireguard.py line 429). -/
def mkIp (i : Nat) : String := "10.10.10." ++ toString i

/-- `wireguard.is_ip_in_use` (wireguard.py lines 249-272): checks the live
query's output, then the config file; any *exception* (raised live query,
failed config read) is caught and makes it return `True` — "В случае ошибки
считаем IP занятым" (on error the IP counts as taken).  A non-zero exit of
`wg show` raises nothing (`check=True` is absent and the return code is never
inspected): the substring test runs against the empty `stdout` and the
function falls through to the config check. -/
def is_ip_in_use (s : WgState) (ip : String) : Bool :=
  if s.runtimeRaises then true
  else if (liveShownIps s).contains ip then true
  else if s.configExists then
    if !s.configReadOk then true
    else (configIps s).contains ip
  else false

/-- The `for i in range(2, 255)` loop of `wireguard.get_next_available_ip`
(wireguard.py lines 428-437): skip candidates already in `used`, double-check
the rest with `is_ip_in_use` (adding positives to `used`), return the first
free one. -/
def scan_ips (s : WgState) : List Nat → List String → Option String
  | [], _ => none
  | i :: rest, used =>
    let ip := mkIp i
    if used.contains ip then scan_ips s rest used
    else if is_ip_in_use s ip then scan_ips s rest (ip :: used)
    else some ip

/-- `wireguard.get_next_available_ip` (wireguard.py lines 393-442): collects
used addresses from the live query's output (pool-filtered; a raised failure
there is caught and only logged, a non-zero exit contributes nothing) and from
the config file (a failure there propagates to the outer handler, which
returns `None`), then scans `10.10.10.2` .. `10.10.10.254` for the first free
address. -/
def get_next_available_ip (s : WgState) : Option String :=
  if s.configExists && !s.configReadOk then none
  else
    let used :=
      (if s.runtimeRaises then [] else (liveShownIps s).filter isPoolIp) ++
      (if s.configExists then configIps s else [])
    scan_ips s (List.range' 2 253) used

/-- `wireguard.add_peer` (wireguard.py lines 208-247).  `keyValid` models
`validate_public_key(public_key)`, `ipValid` models `validate_ip(client_ip)`,
`wgSetOk` models success of the `wg set wg0 peer ...` subprocess (a raised
error is caught and the function returns `False`), `configUpdateOk` models
success of `update_config_file("add", ...)` (wireguard.py lines 108-206:
config rewrite + `wg syncconf`).  On a failed config update the function falls
through to `return False` without touching the already-registered live
peer. -/
def add_peer (s : WgState) (public_key client_ip : String)
    (keyValid ipValid wgSetOk configUpdateOk : Bool) : Bool × WgState :=
  if !keyValid || !ipValid then (false, s)
  else if (list_peers s).contains public_key then (true, s)
  else if is_ip_in_use s client_ip then (false, s)
  else if !wgSetOk then (false, s)
  else
    let s1 := { s with runtimePeers := s.runtimePeers ++ [(public_key, client_ip)] }
    if configUpdateOk then
      (true, { s1 with configPeers := s1.configPeers ++ [(public_key, client_ip)] })
    else (false, s1)

/-- The spec's `usedAddresses()` contract (spec §4.1), stated from the spec's
words for comparison with the code: the union of (a) addresses of active
persisted Users and active TrialGrants, (b) the live peer table, and (c) the
on-disk backend configuration. -/
def spec_usedAddresses (users : List UserRow) (tcs : List TempRow) (now : Int)
    (s : WgState) : List String :=
  ((users.filter (fun u => u.subscription_active &&
      match u.subscription_end_date with
      | some e => now < e
      | none => false)).filterMap (fun u => u.client_ip)) ++
  ((tcs.filter (fun r => r.is_active && now < r.expires_at)).map
      (fun r => r.client_ip)) ++
  runtimeIps s ++ configIps s

/-! ## Access state machine (`src/app/bot_logic.py`)

`bot_logic.py` drives a WG-Easy management API through `wireguard.create_client
(name, is_temp)`, `wireguard.delete_client(client_id)` and
`wireguard.cleanup_user_clients(name, keep_latest)`.  That WG-Easy-backed
module is not part of the sources; following the spec (§4.3, Strategy B:
`createPeer(label)` returns `{peerRef, publicIdentity, address, profileText}`
or an error, `deletePeer(peerRef)` returns ok or an error) its calls are
modelled as oracles: `Option ClientData` for a create, a `Bool` for a delete,
and each invocation is recorded as a `WgEvent`. -/

/-- Modelled from the spec: the payload returned by the missing WG-Easy
`create_client` (spec §4.3 Strategy B — `peerRef` = `id`, `address` = `ip`,
`profileText` = `config`, `publicIdentity` = `public_key`; bot_logic.py reads
exactly the keys `id`, `ip`, `config`, `public_key`). -/
structure ClientData where
  id : String
  ip : String
  config : String
  public_key : String
deriving DecidableEq, Repr

/-- One backend invocation made by the access state machine. -/
inductive WgEvent where
  | deleteClient (cid : String)
  | cleanupClients (name : String)
  | createClient (name : String)
deriving DecidableEq, Repr

/-- How many times `delete_client` was invoked on a given client id. -/
def countDeletes (cid : String) (evs : List WgEvent) : Nat :=
  evs.count (WgEvent.deleteClient cid)

/-- The persistent store as seen by `bot_logic.py`. -/
structure BotDb where
  users : List UserRow
  temp_configs : List TempRow
deriving DecidableEq, Repr

/-- The oracle outcomes of the backend/store calls a `grant_subscription` run
makes: `deleteTempOk` — `wireguard.delete_client` on the existing temp client,
`cleanupOk` — `wireguard.cleanup_user_clients` does not raise, `createResult`
— `wireguard.create_client(str(user_id), is_temp=False)`, `dbUpdateOk` —
`db.update_user_subscription` does not raise. -/
structure SubEnv where
  deleteTempOk : Bool
  cleanupOk : Bool
  createResult : Option ClientData
  dbUpdateOk : Bool
deriving DecidableEq, Repr

/-- How a `grant_subscription` run ends: subscription granted, create returned
nothing (admin and user notified, bot_logic.py lines 118-122), or an exception
was caught by the handler at bot_logic.py lines 146-148. -/
inductive SubOutcome where
  | granted
  | createFailed
  | errorCaught
deriving DecidableEq, Repr

/-- `bot_logic.deactivate_user_temp_config` (bot_logic.py lines 283-303):
fetch the temp config; if it is active and has a WG-Easy client id, invoke
`delete_client` on it; only if that succeeds, mark the row inactive.  On a
failed delete the row is left active (only an error is logged); with no
client id nothing is invoked. -/
def deactivate_user_temp_config (db : BotDb) (uid : Nat)
    (deleteClientOk : Bool) : BotDb × List WgEvent :=
  match get_temp_config db.temp_configs uid with
  | some t =>
    if t.is_active then
      match t.wg_easy_client_id with
      | some cid =>
        if deleteClientOk then
          ({ db with temp_configs := deactivate_temp_config db.temp_configs uid },
           [WgEvent.deleteClient cid])
        else (db, [WgEvent.deleteClient cid])
      | none => (db, [])
    else (db, [])
  | none => (db, [])

/-- `bot_logic.grant_subscription` (bot_logic.py lines 104-148): deactivate
the user's temp config, then inside `try`: `cleanup_user_clients(str(user_id),
keep_latest=False)`, `create_client(str(user_id), is_temp=False)`, and on
success `db.update_user_subscription(user_id, config.SUBSCRIPTION_DAYS, ...)`.
Any exception is caught at lines 146-148, which only notifies the admin — in
particular a failed `update_user_subscription` does **not** delete the client
that was just created. -/
def grant_subscription (db : BotDb) (now : Int) (uid : Nat) (e : SubEnv) :
    BotDb × List WgEvent × SubOutcome :=
  let db1 := (deactivate_user_temp_config db uid e.deleteTempOk).1
  let ev1 := (deactivate_user_temp_config db uid e.deleteTempOk).2
  if !e.cleanupOk then
    (db1, ev1 ++ [WgEvent.cleanupClients (toString uid)], SubOutcome.errorCaught)
  else
    match e.createResult with
    | none =>
      (db1, ev1 ++ [WgEvent.cleanupClients (toString uid)], SubOutcome.createFailed)
    | some cd =>
      if e.dbUpdateOk then
        ({ db1 with users := (update_user_subscription db1.users now uid
              SUBSCRIPTION_DAYS cd.config cd.ip (some cd.id)) },
         ev1 ++ [WgEvent.cleanupClients (toString uid),
                 WgEvent.createClient (toString uid)],
         SubOutcome.granted)
      else
        (db1,
         ev1 ++ [WgEvent.cleanupClients (toString uid),
                 WgEvent.createClient (toString uid)],
         SubOutcome.errorCaught)

/-- What `grant_temp_config` replies to the user. -/
inductive GrantTempOutcome where
  | sentExisting (cfg : String)
  | createdNew (cfg : String)
  | errorMessage
deriving DecidableEq, Repr

/-- `bot_logic.grant_temp_config` (bot_logic.py lines 150-234): after fetching
the existing temp config (line 156), line 157 evaluates `random.randint(1,
128)` — but `bot_logic.py` never imports `random`, so this raises `NameError`
before the TTL check at line 158 is reached; the handler at lines 232-234
catches it and replies with the generic error message, leaving the store
unchanged. -/
def grant_temp_config (db : BotDb) (uid : Nat) : GrantTempOutcome × BotDb :=
  let _existing := get_temp_config db.temp_configs uid
  (GrantTempOutcome.errorMessage, db)

/-! ## Payment webhook and redirect handlers (`src/main.py`, `src/app.py`)

Flask request plumbing is abstracted: each handler takes the payments table,
the relevant request fields, and `Bool`/`Option` oracles for the checks that
the source performs on raw request data (field presence, signature
verification, `int(order_id.split('_')[1])` parsing, `float(amount)`
parsing).  Its result is the HTTP reply together with the side effects
performed: the `update_payment_status` writes and the `grant_subscription`
invocations. -/

/-- The side effects a handler run performs on the core: payment-status
writes (`order_id`, new status) and subscription grants (user id). -/
structure WebhookEffects where
  statusWrites : List (String × String)
  grants : List Nat
deriving DecidableEq, Repr

/-- No side effects. -/
def noEffects : WebhookEffects := ⟨[], []⟩

/-- An HTTP reply: a 200 body or an error status code. -/
inductive HttpResult where
  | ok (body : String)
  | err (code : Nat)
deriving DecidableEq, Repr

/-- The tail of `main.freekassa_webhook` after the user id is known
(main.py lines 104-133): the amount must parse (`float(amount)`), then a
payment already in status `completed` short-circuits to `"YES"` with no
writes and no grant; otherwise the status is set to `completed` and
`grant_subscription` is invoked. -/
def fk_after_user (ps : List PaymentRow) (order_id : String) (u : Nat)
    (amountOk : Bool) : HttpResult × WebhookEffects :=
  if !amountOk then (HttpResult.err 400, noEffects)
  else
    match get_payment_by_order_id ps order_id with
    | some p =>
      if p.status == "completed" then (HttpResult.ok "YES", noEffects)
      else (HttpResult.ok "YES", ⟨[(order_id, "completed")], [u]⟩)
    | none => (HttpResult.ok "YES", ⟨[(order_id, "completed")], [u]⟩)

/-- `main.freekassa_webhook`, POST branch (main.py lines 56-133).  `fieldsOk`
models presence of the required form fields, `signOk` acceptance of the
signature (test value or verified), `orderIdUnderscore` the `'_' in
merchant_order_id` test and `parsedUser` the result of
`int(merchant_order_id.split('_')[1])` (`none` = ValueError → 400); without an
underscore the user id is taken from the stored payment (404 when absent). -/
def main_freekassa_webhook (ps : List PaymentRow) (order_id : String)
    (fieldsOk signOk : Bool) (orderIdUnderscore : Bool)
    (parsedUser : Option Nat) (amountOk : Bool) : HttpResult × WebhookEffects :=
  if !fieldsOk then (HttpResult.err 400, noEffects)
  else if !signOk then (HttpResult.err 400, noEffects)
  else if orderIdUnderscore then
    match parsedUser with
    | none => (HttpResult.err 400, noEffects)
    | some u => fk_after_user ps order_id u amountOk
  else
    match get_payment_by_order_id ps order_id with
    | none => (HttpResult.err 404, noEffects)
    | some p => fk_after_user ps order_id p.user_id amountOk

/-- `main.cryptocloud_webhook` (main.py lines 140-198): empty data → 400;
status other than `success` → `"OK"`; unknown order → 404; an order already
`completed` → `"OK"` with no writes and no grant; otherwise write `completed`
and grant. -/
def main_cryptocloud_webhook (ps : List PaymentRow) (dataPresent : Bool)
    (statusField : String) (orderId : Option String) :
    HttpResult × WebhookEffects :=
  if !dataPresent then (HttpResult.err 400, noEffects)
  else if !(statusField == "success") then (HttpResult.ok "OK", noEffects)
  else
    match orderId with
    | none => (HttpResult.err 400, noEffects)
    | some oid =>
      match get_payment_by_order_id ps oid with
      | none => (HttpResult.err 404, noEffects)
      | some p =>
        if p.status == "completed" then (HttpResult.ok "OK", noEffects)
        else (HttpResult.ok "OK", ⟨[(oid, "completed")], [p.user_id]⟩)

/-- `main.payment_success` (main.py lines 202-248), effects only (the HTML
page is always returned): with an order id, the user id comes from the
underscore format (a parse failure raises and is caught — no effects) or from
the stored payment; a payment already `completed` is skipped, anything else
gets a status write and a grant. -/
def main_payment_success (ps : List PaymentRow) (orderId : Option String)
    (orderIdUnderscore : Bool) (parsedUser : Option Nat) : WebhookEffects :=
  match orderId with
  | none => noEffects
  | some oid =>
    let uid? := if orderIdUnderscore then parsedUser
      else
        match get_payment_by_order_id ps oid with
        | some p => some p.user_id
        | none => none
    match uid? with
    | none => noEffects
    | some u =>
      match get_payment_by_order_id ps oid with
      | some p =>
        if p.status == "completed" then noEffects
        else ⟨[(oid, "completed")], [u]⟩
      | none => ⟨[(oid, "completed")], [u]⟩

/-- `app.freekassa_webhook` in the superseded `src/app.py` (lines 34-68): it
never reads the stored payment — after the signature and order-id checks it
unconditionally writes `completed` and invokes `grant_subscription`. -/
def app_freekassa_webhook (_ps : List PaymentRow) (signOk : Bool)
    (orderId : Option String) (parsedUser : Option Nat) :
    HttpResult × WebhookEffects :=
  if !signOk then (HttpResult.err 400, noEffects)
  else
    match orderId with
    | none => (HttpResult.err 400, noEffects)
    | some oid =>
      match parsedUser with
      | none => (HttpResult.err 400, noEffects)
      | some u => (HttpResult.ok "YES", ⟨[(oid, "completed")], [u]⟩)

/-! ## Helper lemmas -/

/-- `update_user_subscription` stamps every row of the target user with
`subscription_end_date = now + days` and an active flag. -/
theorem update_user_subscription_end
    (users : List UserRow) (now days : Int) (uid : Nat) (cfg ip : String)
    (cid : Option String) :
    ∀ u ∈ update_user_subscription users now uid days cfg ip cid,
      u.telegram_id = uid →
      u.subscription_end_date = some (now + days) ∧ u.subscription_active = true := by
  intro u hu ht
  rw [update_user_subscription, List.mem_map] at hu
  obtain ⟨a, _, hfa⟩ := hu
  by_cases h : a.telegram_id == uid
  · rw [if_pos h] at hfa
    subst hfa
    exact ⟨rfl, rfl⟩
  · rw [if_neg h] at hfa
    subst hfa
    exact absurd (beq_iff_eq.mpr ht) h

/-- `deactivate_user_temp_config` never touches the `users` table. -/
theorem deactivate_keeps_users (db : BotDb) (uid : Nat) (ok : Bool) :
    (deactivate_user_temp_config db uid ok).1.users = db.users := by
  rw [deactivate_user_temp_config]
  cases hget : get_temp_config db.temp_configs uid with
  | none => rfl
  | some t =>
    by_cases ha : t.is_active = true
    · cases hcid : t.wg_easy_client_id with
      | none => simp [ha, hcid]
      | some cid => cases ok <;> simp [ha, hcid]
    · simp [Bool.not_eq_true] at ha
      simp [ha]

/-- A `get_temp_config` hit is a member row of the target user. -/
theorem get_temp_config_mem {tcs : List TempRow} {uid : Nat} {t : TempRow}
    (h : get_temp_config tcs uid = some t) : t ∈ tcs ∧ t.user_id = uid := by
  refine ⟨List.mem_of_find?_eq_some h, ?_⟩
  have := List.find?_some h
  exact beq_iff_eq.mp this

/-- After `deactivate_temp_config`, every row of the target user is inactive. -/
theorem deactivate_temp_config_inactive (tcs : List TempRow) (uid : Nat) :
    ∀ r ∈ deactivate_temp_config tcs uid, r.user_id = uid → r.is_active = false := by
  intro r hr hru
  rw [deactivate_temp_config, List.mem_map] at hr
  obtain ⟨a, _, hfa⟩ := hr
  by_cases h : (a.user_id == uid && a.is_active) = true
  · rw [if_pos h] at hfa
    subst hfa
    rfl
  · rw [if_neg h] at hfa
    subst hfa
    simp only [Bool.and_eq_true, beq_iff_eq, not_and] at h
    exact Bool.not_eq_true _ ▸ h hru

/-- Evaluation of `deactivate_user_temp_config` on a user holding an active
temp config with a WG-Easy client id. -/
theorem deactivate_eval_active {db : BotDb} {uid : Nat} {t : TempRow}
    {cid : String} (ok : Bool)
    (hget : get_temp_config db.temp_configs uid = some t)
    (hact : t.is_active = true) (hcid : t.wg_easy_client_id = some cid) :
    deactivate_user_temp_config db uid ok =
      (if ok then
         { db with temp_configs := deactivate_temp_config db.temp_configs uid }
       else db,
       [WgEvent.deleteClient cid]) := by
  rw [deactivate_user_temp_config, hget]
  simp only [hact, hcid, if_true]
  cases ok <;> simp

/-- Evaluation of `deactivate_user_temp_config` on a user without a temp
config row. -/
theorem deactivate_eval_none {db : BotDb} {uid : Nat} (ok : Bool)
    (hget : get_temp_config db.temp_configs uid = none) :
    deactivate_user_temp_config db uid ok = (db, []) := by
  rw [deactivate_user_temp_config, hget]

/-- Creating a temp config leaves exactly one row for the target user (the
`DELETE` removes all of the user's rows, the `INSERT` adds one). -/
theorem tempRowCount_add_self (tcs : List TempRow) (now : Int) (uid : Nat)
    (cfg ip pk : String) (cid : Option String) :
    tempRowCount (add_temp_config tcs now uid cfg ip pk cid) uid = 1 := by
  rw [tempRowCount, add_temp_config, List.countP_append, List.countP_filter]
  have h0 : (tcs.countP fun a => a.user_id == uid && !(a.user_id == uid)) = 0 := by
    rw [show (fun (a : TempRow) => a.user_id == uid && !(a.user_id == uid)) =
        (fun _ => false) from funext fun a => by cases a.user_id == uid <;> rfl]
    exact congrFun List.countP_false tcs
  rw [h0]
  simp [List.countP_cons]

/-- Creating a temp config for another user does not increase a user's row
count. -/
theorem tempRowCount_add_other (tcs : List TempRow) (now : Int)
    (uid uid' : Nat) (cfg ip pk : String) (cid : Option String)
    (h : uid ≠ uid') :
    tempRowCount (add_temp_config tcs now uid' cfg ip pk cid) uid ≤
      tempRowCount tcs uid := by
  rw [tempRowCount, add_temp_config, List.countP_append]
  have h1 : (([⟨uid', cfg, ip, pk, cid, now, now + 10, true⟩] :
      List TempRow).countP fun r => r.user_id == uid) = 0 := by
    simp [List.countP_cons, Ne.symm h]
  rw [h1, Nat.add_zero]
  exact (List.filter_sublist tcs).countP_le _

/-- Removing a temp config does not increase any user's row count. -/
theorem tempRowCount_remove_le (tcs : List TempRow) (uid uid' : Nat) :
    tempRowCount (remove_temp_config tcs uid') uid ≤ tempRowCount tcs uid := by
  rw [tempRowCount, remove_temp_config]
  exact (List.filter_sublist tcs).countP_le _

/-- Deactivation preserves every user's row count. -/
theorem tempRowCount_deactivate (tcs : List TempRow) (uid uid' : Nat) :
    tempRowCount (deactivate_temp_config tcs uid') uid = tempRowCount tcs uid := by
  rw [tempRowCount, tempRowCount, deactivate_temp_config, List.countP_map]
  refine congrFun (congrArg _ (funext fun r => ?_)) tcs
  by_cases h : (r.user_id == uid' && r.is_active) = true
  · rw [Function.comp_apply, if_pos h]
  · rw [Function.comp_apply, if_neg h]

/-- A user's active rows are among the user's rows. -/
theorem activeTempCount_le (tcs : List TempRow) (uid : Nat) :
    activeTempCount tcs uid ≤ tempRowCount tcs uid := by
  rw [activeTempCount, tempRowCount]
  induction tcs with
  | nil => exact Nat.le_refl 0
  | cons a l ih =>
    rw [List.countP_cons, List.countP_cons]
    cases h1 : (a.user_id == uid && a.is_active) with
    | false => cases h2 : (a.user_id == uid) <;> simp <;> omega
    | true =>
      have h2 : (a.user_id == uid) = true := (Bool.and_eq_true _ _ |>.mp h1).1
      simp [h2]
      omega

/-- Every single store operation preserves the at-most-one-row invariant. -/
theorem applyTempOp_inv (tcs : List TempRow) (op : TempOp)
    (h : ∀ uid, tempRowCount tcs uid ≤ 1) :
    ∀ uid, tempRowCount (applyTempOp tcs op) uid ≤ 1 := by
  intro uid
  cases op with
  | add now uid' cfg ip pk cid =>
    by_cases he : uid = uid'
    · subst he
      exact Nat.le_of_eq (tempRowCount_add_self tcs now uid cfg ip pk cid)
    · exact Nat.le_trans (tempRowCount_add_other tcs now uid uid' cfg ip pk cid he)
        (h uid)
  | remove uid' => exact Nat.le_trans (tempRowCount_remove_le tcs uid uid') (h uid)
  | deactivate uid' =>
    exact Nat.le_of_eq (tempRowCount_deactivate tcs uid uid') |>.trans (h uid)

/-- The at-most-one-row invariant holds along any operation sequence. -/
theorem runTempOps_inv (ops : List TempOp) :
    ∀ (init : List TempRow), (∀ uid, tempRowCount init uid ≤ 1) →
      ∀ uid, tempRowCount (List.foldl applyTempOp init ops) uid ≤ 1 := by
  induction ops with
  | nil => intro init h uid; exact h uid
  | cons op rest ih =>
    intro init h uid
    rw [List.foldl_cons]
    exact ih (applyTempOp init op) (applyTempOp_inv init op h) uid

/-- `List.contains` agrees with membership (specialised to strings). -/
theorem contains_true_iff (l : List String) (x : String) :
    l.contains x = true ↔ x ∈ l :=
  List.elem_iff

/-- Every address in the initial used set of `get_next_available_ip` is
reported in use by `is_ip_in_use` (when the live query raises nothing and the
config read succeeds; both sides consult the same completed-query output, so
the command's exit status does not matter here). -/
theorem used_init_in_use (s : WgState) (hr : s.runtimeRaises = false)
    (hc : s.configReadOk = true) :
    ∀ x ∈ ((if s.runtimeRaises then [] else (liveShownIps s).filter isPoolIp) ++
        (if s.configExists then configIps s else [])),
      is_ip_in_use s x = true := by
  intro x hx
  rw [List.mem_append] at hx
  cases hcon : (liveShownIps s).contains x with
  | true =>
    have hm := (contains_true_iff _ _).mp hcon
    simp [is_ip_in_use, hr, hm]
  | false =>
    rcases hx with hx | hx
    · rw [if_neg (by simp [hr])] at hx
      simp only [List.elem_eq_mem, decide_eq_false_iff_not] at hcon
      exact absurd (List.mem_of_mem_filter hx) hcon
    · by_cases hce : s.configExists = true
      · rw [if_pos hce] at hx
        simp [is_ip_in_use, hr, hc, hce, hx]
      · rw [if_neg hce] at hx
        exact absurd hx (List.not_mem_nil x)

/-- The scan loop with an accumulated used set whose members are all in use
behaves as a plain first-match search over the candidate indices. -/
theorem scan_ips_eq_findSome (s : WgState) :
    ∀ (idxs : List Nat) (used : List String),
      (∀ x ∈ used, is_ip_in_use s x = true) →
      scan_ips s idxs used =
        idxs.findSome? (fun i =>
          if is_ip_in_use s (mkIp i) then none else some (mkIp i)) := by
  intro idxs
  induction idxs with
  | nil => intro used _; rfl
  | cons i rest ih =>
    intro used hused
    rw [scan_ips, List.findSome?_cons]
    by_cases hcu : used.contains (mkIp i) = true
    · have hmem : mkIp i ∈ used := (contains_true_iff _ _).mp hcu
      rw [if_pos hcu, hused (mkIp i) hmem]
      simpa using ih used hused
    · rw [if_neg hcu]
      cases hiu : is_ip_in_use s (mkIp i) with
      | true =>
        simp only [hiu, if_true]
        simpa using ih (mkIp i :: used) fun x hx => by
          rcases List.mem_cons.mp hx with hx | hx
          · rw [hx]; exact hiu
          · exact hused x hx
      | false => simp [hiu]

/-- A successful first-match search over `range' a n` yields the first index
whose candidate is free. -/
theorem findSome_range'_some (P : Nat → Bool) :
    ∀ (n a : Nat) (ip : String),
      (List.range' a n).findSome? (fun i =>
        if P i then none else some (mkIp i)) = some ip →
      ∃ i, a ≤ i ∧ i < a + n ∧ ip = mkIp i ∧ P i = false ∧
        ∀ j, a ≤ j → j < i → P j = true := by
  intro n
  induction n with
  | zero => intro a ip h; exact absurd h (by simp)
  | succ m ih =>
    intro a ip h
    rw [List.range'_succ, List.findSome?_cons] at h
    cases hP : P a with
    | false =>
      rw [hP] at h
      simp only [Bool.false_eq_true, if_false] at h
      refine ⟨a, Nat.le_refl a, by omega, (Option.some_inj.mp h).symm, hP,
        fun j h1 h2 => absurd (Nat.lt_of_le_of_lt h1 h2) (Nat.lt_irrefl a)⟩
    | true =>
      rw [hP] at h
      simp only [if_true] at h
      obtain ⟨i, h1, h2, h3, h4, h5⟩ := ih (a + 1) ip h
      refine ⟨i, by omega, by omega, h3, h4, fun j hj1 hj2 => ?_⟩
      by_cases hja : j = a
      · rw [hja]; exact hP
      · exact h5 j (by omega) hj2

/-- When every candidate over `range' a n` is in use, the search fails. -/
theorem findSome_range'_none (P : Nat → Bool) :
    ∀ (n a : Nat), (∀ i, a ≤ i → i < a + n → P i = true) →
      (List.range' a n).findSome? (fun i =>
        if P i then none else some (mkIp i)) = none := by
  intro n
  induction n with
  | zero => intro a _; simp
  | succ m ih =>
    intro a h
    rw [List.range'_succ, List.findSome?_cons,
      h a (Nat.le_refl a) (by omega)]
    simp only [if_true]
    exact ih (a + 1) fun i h1 h2 => h i (by omega) (by omega)

/-- When the live query raises nothing and the config read succeeds, a
successful allocation returns the first pool candidate (ascending from
`10.10.10.2`) that `is_ip_in_use` reports free. -/
theorem get_next_characterization (s : WgState) (hr : s.runtimeRaises = false)
    (hc : s.configReadOk = true) :
    ∀ ip, get_next_available_ip s = some ip →
      ∃ i, 2 ≤ i ∧ i ≤ 254 ∧ ip = mkIp i ∧ is_ip_in_use s ip = false ∧
        ∀ j, 2 ≤ j → j < i → is_ip_in_use s (mkIp j) = true := by
  intro ip h
  rw [get_next_available_ip] at h
  rw [if_neg (by simp [hc])] at h
  rw [scan_ips_eq_findSome s _ _ (used_init_in_use s hr hc)] at h
  obtain ⟨i, h1, h2, h3, h4, h5⟩ :=
    findSome_range'_some (fun i => is_ip_in_use s (mkIp i)) 253 2 ip h
  exact ⟨i, h1, by omega, h3, h3 ▸ h4, h5⟩

/-- When the live query raises nothing, the config read succeeds and the
whole pool is in use, allocation returns `none`. -/
theorem get_next_none_of_all_used (s : WgState) (hr : s.runtimeRaises = false)
    (hc : s.configReadOk = true)
    (hall : ∀ i, 2 ≤ i → i ≤ 254 → is_ip_in_use s (mkIp i) = true) :
    get_next_available_ip s = none := by
  rw [get_next_available_ip, if_neg (by simp [hc]),
    scan_ips_eq_findSome s _ _ (used_init_in_use s hr hc)]
  exact findSome_range'_none (fun i => is_ip_in_use s (mkIp i)) 253 2
    fun i h1 h2 => hall i h1 (by omega)

/-! ## Claims -/

/-- The backend-event trace of a `grant_subscription` run is the deactivation
events followed by the cleanup call and, when a client was created, the create
call; the `temp_configs` table is whatever the deactivation step left. -/
theorem grant_subscription_parts (db : BotDb) (now : Int) (uid : Nat) (e : SubEnv) :
    (grant_subscription db now uid e).2.1 =
      (deactivate_user_temp_config db uid e.deleteTempOk).2 ++
        (match e.createResult with
         | none => [WgEvent.cleanupClients (toString uid)]
         | some _ =>
           if e.cleanupOk then
             [WgEvent.cleanupClients (toString uid), WgEvent.createClient (toString uid)]
           else [WgEvent.cleanupClients (toString uid)]) ∧
    (grant_subscription db now uid e).1.temp_configs =
      (deactivate_user_temp_config db uid e.deleteTempOk).1.temp_configs := by
  rw [grant_subscription]
  cases hcl : e.cleanupOk <;> cases hcr : e.createResult <;>
    cases hdb : e.dbUpdateOk <;> simp

/-- Claim C10 counterexample: the live peer table actually holds
`10.10.10.2` (peer `k1`), but the `wg show` call fails with a non-zero exit —
which raises nothing (`subprocess.run` without `check=True`, return code never
inspected) and leaves `stdout` empty; the config file exists, reads fine and
is empty.  `is_ip_in_use` then reports the address *free*, and the allocator
hands out exactly that live-held address, although its availability was never
confirmed. -/
theorem c10_counterexample :
    is_ip_in_use ⟨[("k1", "10.10.10.2")], [], false, false, true, true⟩
        "10.10.10.2" = false ∧
    "10.10.10.2" ∈ runtimeIps ⟨[("k1", "10.10.10.2")], [], false, false, true, true⟩ ∧
    get_next_available_ip ⟨[("k1", "10.10.10.2")], [], false, false, true, true⟩ =
      some "10.10.10.2" := by
  exact ⟨by decide, by decide, by decide⟩

/-- Claim C10 (amended): a *raised* failure of the live-state query (e.g. a
subprocess timeout) or of the config-file read makes `is_ip_in_use` report
the address occupied; but a non-zero exit of the live query raises nothing —
the code treats the empty output as an empty peer table and falls through to
the config check, so an address absent from a readable config file is
reported free even though its live availability was not confirmed (regardless
of what the live peer table actually holds). -/
theorem c10_fail_closed (s : WgState) (ip : String) :
    (s.runtimeRaises = true ∨ (s.configExists = true ∧ s.configReadOk = false) →
      is_ip_in_use s ip = true) ∧
    (s.runtimeRaises = false → s.runtimeExitOk = false → s.configExists = true →
      s.configReadOk = true → (configIps s).contains ip = false →
      is_ip_in_use s ip = false) := by
  constructor
  · intro h
    rcases h with h | ⟨h1, h2⟩
    · simp [is_ip_in_use, h]
    · cases hr : s.runtimeRaises <;>
        simp [is_ip_in_use, hr, h1, h2]
  · intro h1 h2 h3 h4 h5
    have hnc : ip ∉ configIps s := by
      simp only [List.elem_eq_mem, decide_eq_false_iff_not] at h5
      exact h5
    simp [is_ip_in_use, liveShownIps, h1, h2, h3, h4, hnc]

/-- Claim C10 witness: a raised live-query failure reports occupied; a
non-zero-exit live-query failure with a readable config falls through to
free, even with the address live-held. -/
theorem c10_witness :
    is_ip_in_use ⟨[], [], true, true, true, true⟩ "10.10.10.7" = true ∧
    is_ip_in_use ⟨[("kW", "10.10.10.8")], [], false, false, true, true⟩
      "10.10.10.8" = false :=
  ⟨(c10_fail_closed ⟨[], [], true, true, true, true⟩ "10.10.10.7").1 (Or.inl rfl),
   (c10_fail_closed ⟨[("kW", "10.10.10.8")], [], false, false, true, true⟩
      "10.10.10.8").2 rfl rfl rfl rfl (by decide)⟩

/-- Claim C8 (code bug): `bot_logic.py` uses `random.randint` at line 157 but
never imports `random`, so every `grant_temp_config` call — in particular a
re-request by a user who holds an active, unexpired trial — raises `NameError`
before the TTL check at line 158, is caught at line 232, and replies with the
generic error message instead of returning the existing grant; the store is
left unchanged.  The second conjunct evaluates the code at a failing input:
user 1 holds an active temp config whose `expires_at = 10` is still in the
future at `now = 0`. -/
theorem c8_trial_rerequest_name_error :
    (∀ (db : BotDb) (uid : Nat),
      grant_temp_config db uid = (GrantTempOutcome.errorMessage, db)) ∧
    (get_temp_config [⟨1, "cfgtext", "10.10.10.5", "pk", some "cid1", 0, 10, true⟩] 1 =
        some ⟨1, "cfgtext", "10.10.10.5", "pk", some "cid1", 0, 10, true⟩ ∧
      (0:Int) < 10 ∧
      grant_temp_config ⟨[], [⟨1, "cfgtext", "10.10.10.5", "pk", some "cid1", 0, 10, true⟩]⟩ 1 =
        (GrantTempOutcome.errorMessage,
         ⟨[], [⟨1, "cfgtext", "10.10.10.5", "pk", some "cid1", 0, 10, true⟩]⟩)) := by
  exact ⟨fun db uid => rfl, by decide, by decide, rfl⟩

/-- Claim C7 counterexample: the superseded handler `app.freekassa_webhook`
(src/app.py lines 34-68) re-processes an order whose stored payment is already
`completed`: with a valid signature and order id it rewrites the status and
invokes a second subscription grant, so processing is not a no-op. -/
theorem c7_counterexample :
    get_payment_by_order_id [⟨1, 150, "RUB", "freekassa", "order_1", "completed", 0⟩]
        "order_1" = some ⟨1, 150, "RUB", "freekassa", "order_1", "completed", 0⟩ ∧
    app_freekassa_webhook [⟨1, 150, "RUB", "freekassa", "order_1", "completed", 0⟩]
        true (some "order_1") (some 1) =
      (HttpResult.ok "YES", ⟨[("order_1", "completed")], [1]⟩) ∧
    (⟨[("order_1", "completed")], [1]⟩ : WebhookEffects) ≠ noEffects := by
  refine ⟨by decide, rfl, by decide⟩

/-- Claim C7 (amended): the three handlers in `src/main.py` (freekassa
webhook, cryptocloud webhook, success redirect) treat a payment already in
status `completed` as a no-op — no status write, no grant; the superseded
handler in `src/app.py` performs the status write and the grant
unconditionally. -/
theorem c7_completed_idempotency
    (ps : List PaymentRow) (oid : String) (p : PaymentRow) (u : Nat)
    (hp : get_payment_by_order_id ps oid = some p)
    (hs : p.status = "completed") :
    main_freekassa_webhook ps oid true true true (some u) true =
      (HttpResult.ok "YES", noEffects) ∧
    main_cryptocloud_webhook ps true "success" (some oid) =
      (HttpResult.ok "OK", noEffects) ∧
    main_payment_success ps (some oid) true (some u) = noEffects ∧
    app_freekassa_webhook ps true (some oid) (some u) =
      (HttpResult.ok "YES", ⟨[(oid, "completed")], [u]⟩) := by
  refine ⟨?_, ?_, ?_, rfl⟩
  · simp [main_freekassa_webhook, fk_after_user, hp, hs]
  · simp [main_cryptocloud_webhook, hp, hs]
  · simp [main_payment_success, hp, hs]

/-- Claim C7 witness: a concrete already-completed payment. -/
theorem c7_witness :
    main_freekassa_webhook [⟨1, 150, "RUB", "freekassa", "o_1", "completed", 0⟩]
        "o_1" true true true (some 1) true = (HttpResult.ok "YES", noEffects) ∧
    main_cryptocloud_webhook [⟨1, 150, "RUB", "freekassa", "o_1", "completed", 0⟩]
        true "success" (some "o_1") = (HttpResult.ok "OK", noEffects) ∧
    main_payment_success [⟨1, 150, "RUB", "freekassa", "o_1", "completed", 0⟩]
        (some "o_1") true (some 1) = noEffects ∧
    app_freekassa_webhook [⟨1, 150, "RUB", "freekassa", "o_1", "completed", 0⟩]
        true (some "o_1") (some 1) =
      (HttpResult.ok "YES", ⟨[("o_1", "completed")], [1]⟩) :=
  c7_completed_idempotency
    [⟨1, 150, "RUB", "freekassa", "o_1", "completed", 0⟩] "o_1"
    ⟨1, 150, "RUB", "freekassa", "o_1", "completed", 0⟩ 1 (by decide) rfl

/-- Claim C1 counterexample: user 1 holds an unexpired subscription with
`subscriptionEndAt = 5` (now = 0, i.e. now+5d); a successful
`grant_subscription` (durationDays = `SUBSCRIPTION_DAYS` = 30) stores
`subscriptionEndAt = 30` = now + 30, not `5 + 30` as the claim states. -/
theorem c1_counterexample :
    (grant_subscription
        ⟨[⟨1, "u", "f", some 5, true, some "oldcfg", some "10.10.10.2", some "oldid"⟩], []⟩
        0 1 ⟨true, true, some ⟨"newid", "10.10.10.3", "newcfg", "pk"⟩, true⟩).1.users =
      [⟨1, "u", "f", some 30, true, some "newcfg", some "10.10.10.3", some "newid"⟩] ∧
    some (30:Int) ≠ some ((5:Int) + 30) := by
  exact ⟨by decide, by decide⟩

/-- Claim C1 (amended): a successful `grantPermanentAccess` stores
`subscriptionEndAt = now + durationDays` regardless of any existing expiry —
renewal restarts the clock instead of appending to the previous expiry
(`database.update_user_subscription` computes
`datetime.now() + timedelta(days=days)`). -/
theorem c1_renewal_restarts_clock
    (users : List UserRow) (now days : Int) (uid : Nat) (cfg ip : String)
    (cid : Option String) :
    (∀ u ∈ update_user_subscription users now uid days cfg ip cid,
       u.telegram_id = uid →
       u.subscription_end_date = some (now + days) ∧ u.subscription_active = true) ∧
    (∀ (db : BotDb) (e : SubEnv) (cd : ClientData),
       e.cleanupOk = true → e.createResult = some cd → e.dbUpdateOk = true →
       ∀ u ∈ (grant_subscription db now uid e).1.users, u.telegram_id = uid →
         u.subscription_end_date = some (now + SUBSCRIPTION_DAYS)) := by
  constructor
  · exact update_user_subscription_end users now days uid cfg ip cid
  · intro db e cd hcl hcr hdb u hu ht
    rw [grant_subscription] at hu
    simp only [hcl, hcr, hdb, Bool.not_true, Bool.false_eq_true, if_false, if_true,
      ite_false, ite_true] at hu
    exact (update_user_subscription_end _ now SUBSCRIPTION_DAYS uid _ _ _ u hu ht).1

/-- Claim C1 witness: concrete renewal at `now = 2` for `days = 7`. -/
theorem c1_witness :
    (⟨1, "u", "f", some ((2:Int) + 7), true, some "c", some "i", none⟩ : UserRow).subscription_end_date =
      some ((2:Int) + 7) ∧
    (⟨1, "u", "f", some ((2:Int) + 7), true, some "c", some "i", none⟩ : UserRow).subscription_active =
      true :=
  (c1_renewal_restarts_clock [⟨1, "u", "f", some 5, true, none, none, none⟩]
      2 7 1 "c" "i" none).1
    ⟨1, "u", "f", some ((2:Int) + 7), true, some "c", some "i", none⟩ (by decide) rfl

/-- Claim C3 counterexample: user 1 holds an active trial (client id `c1`,
unexpired: now = 0 < expires_at = 10); the backend delete fails
(`deleteTempOk = false`), `grant_subscription` still returns (granting the
subscription), yet the trial row is *not* marked inactive in the store — the
delete was invoked exactly once but `deactivate_temp_config` was skipped
(bot_logic.py lines 302-303 only log the failure). -/
theorem c3_counterexample :
    (0:Int) < 10 ∧
    (grant_subscription ⟨[], [⟨1, "cfg", "10.10.10.5", "pk", some "c1", 0, 10, true⟩]⟩
        0 1 ⟨false, true, some ⟨"newid", "10.10.10.3", "newcfg", "pk2"⟩, true⟩).1.temp_configs =
      [⟨1, "cfg", "10.10.10.5", "pk", some "c1", 0, 10, true⟩] ∧
    countDeletes "c1"
      (grant_subscription ⟨[], [⟨1, "cfg", "10.10.10.5", "pk", some "c1", 0, 10, true⟩]⟩
        0 1 ⟨false, true, some ⟨"newid", "10.10.10.3", "newcfg", "pk2"⟩, true⟩).2.1 = 1 := by
  exact ⟨by decide, by decide, by decide⟩

/-- Claim C3 (amended): for a user holding an active unexpired trial whose row
records a backend client id, `grant_subscription` invokes deletion of that
backend peer exactly once before returning; *provided the backend deletion
succeeds* the trial is marked inactive in the store, while on a failed
deletion the trial row remains active. -/
theorem c3_trial_superseded
    (db : BotDb) (now : Int) (uid : Nat) (e : SubEnv) (t : TempRow) (cid : String)
    (hget : get_temp_config db.temp_configs uid = some t)
    (hact : t.is_active = true)
    (_hexp : now < t.expires_at)
    (hcid : t.wg_easy_client_id = some cid) :
    countDeletes cid (grant_subscription db now uid e).2.1 = 1 ∧
    (e.deleteTempOk = true →
      ∀ r ∈ (grant_subscription db now uid e).1.temp_configs,
        r.user_id = uid → r.is_active = false) ∧
    (e.deleteTempOk = false →
      ∃ r ∈ (grant_subscription db now uid e).1.temp_configs,
        r.user_id = uid ∧ r.is_active = true) := by
  obtain ⟨hev, htc⟩ := grant_subscription_parts db now uid e
  have hde := deactivate_eval_active e.deleteTempOk hget hact hcid
  refine ⟨?_, ?_, ?_⟩
  · rw [hev, hde]
    cases hcr : e.createResult <;> cases hcl : e.cleanupOk <;>
      simp [countDeletes, List.count_append, List.count_cons, List.count_nil,
        List.count_singleton]
  · intro hok r hr hru
    rw [htc, hde, hok, if_pos rfl] at hr
    exact deactivate_temp_config_inactive db.temp_configs uid r hr hru
  · intro hok
    rw [htc, hde, hok]
    simp only [Bool.false_eq_true, if_false]
    obtain ⟨hmem, huid⟩ := get_temp_config_mem hget
    exact ⟨t, hmem, huid, hact⟩

/-- Claim C3 witness: concrete user 1 with active unexpired trial, backend
delete succeeding. -/
theorem c3_witness :
    countDeletes "c1"
      (grant_subscription ⟨[], [⟨1, "cfg", "10.10.10.5", "pk", some "c1", 0, 10, true⟩]⟩
        0 1 ⟨true, true, some ⟨"newid", "10.10.10.3", "newcfg", "pk2"⟩, true⟩).2.1 = 1 ∧
    (true = true →
      ∀ r ∈ (grant_subscription ⟨[], [⟨1, "cfg", "10.10.10.5", "pk", some "c1", 0, 10, true⟩]⟩
          0 1 ⟨true, true, some ⟨"newid", "10.10.10.3", "newcfg", "pk2"⟩, true⟩).1.temp_configs,
        r.user_id = 1 → r.is_active = false) ∧
    (true = false →
      ∃ r ∈ (grant_subscription ⟨[], [⟨1, "cfg", "10.10.10.5", "pk", some "c1", 0, 10, true⟩]⟩
          0 1 ⟨true, true, some ⟨"newid", "10.10.10.3", "newcfg", "pk2"⟩, true⟩).1.temp_configs,
        r.user_id = 1 ∧ r.is_active = true) :=
  c3_trial_superseded
    ⟨[], [⟨1, "cfg", "10.10.10.5", "pk", some "c1", 0, 10, true⟩]⟩ 0 1
    ⟨true, true, some ⟨"newid", "10.10.10.3", "newcfg", "pk2"⟩, true⟩
    ⟨1, "cfg", "10.10.10.5", "pk", some "c1", 0, 10, true⟩ "c1"
    (by decide) rfl (by decide) rfl

/-- Claim C6 counterexample: with no pre-existing trial, `create_client`
succeeds (client id `newid`) and the subsequent
`db.update_user_subscription` raises; the handler at bot_logic.py lines
146-148 catches the exception and returns — the created backend peer is never
deleted (zero `delete_client` invocations), leaving an orphaned peer. -/
theorem c6_counterexample :
    (grant_subscription ⟨[⟨1, "u", "f", none, false, none, none, none⟩], []⟩
        0 1 ⟨true, true, some ⟨"newid", "10.10.10.3", "newcfg", "pk2"⟩, false⟩) =
      (⟨[⟨1, "u", "f", none, false, none, none, none⟩], []⟩,
       [WgEvent.cleanupClients "1", WgEvent.createClient "1"],
       SubOutcome.errorCaught) ∧
    countDeletes "newid"
      (grant_subscription ⟨[⟨1, "u", "f", none, false, none, none, none⟩], []⟩
        0 1 ⟨true, true, some ⟨"newid", "10.10.10.3", "newcfg", "pk2"⟩, false⟩).2.1 = 0 := by
  exact ⟨by decide, by decide⟩

/-- Claim C6 (amended): in `grant_subscription` a step failure before peer
creation (the create call returns nothing) leaves the `users` table unchanged,
but a persistence failure *after* the peer was created is merely caught — the
run ends in `errorCaught` with the store unchanged and **no** compensating
deletion of the created peer; the trial-grant operation `grant_temp_config`
always fails before any peer creation (the missing `random` import) and leaves
all state unchanged. -/
theorem c6_failure_semantics (db : BotDb) (now : Int) (uid : Nat) (e : SubEnv) :
    (e.cleanupOk = true → e.createResult = none →
       (grant_subscription db now uid e).1.users = db.users ∧
       (grant_subscription db now uid e).2.2 = SubOutcome.createFailed) ∧
    (∀ cd : ClientData, e.cleanupOk = true → e.createResult = some cd →
       e.dbUpdateOk = false → get_temp_config db.temp_configs uid = none →
       (grant_subscription db now uid e).1 = db ∧
       (grant_subscription db now uid e).2.2 = SubOutcome.errorCaught ∧
       countDeletes cd.id (grant_subscription db now uid e).2.1 = 0) ∧
    (∀ (db2 : BotDb) (uid2 : Nat),
       grant_temp_config db2 uid2 = (GrantTempOutcome.errorMessage, db2)) := by
  refine ⟨?_, ?_, fun db2 uid2 => rfl⟩
  · intro hcl hcr
    rw [grant_subscription]
    simp only [hcl, hcr, Bool.not_true, Bool.false_eq_true, if_false]
    exact ⟨deactivate_keeps_users db uid e.deleteTempOk, trivial⟩
  · intro cd hcl hcr hdb hget
    have hde := deactivate_eval_none e.deleteTempOk hget
    rw [grant_subscription]
    simp only [hcl, hcr, hdb, Bool.not_true, Bool.false_eq_true, if_false, hde]
    refine ⟨trivial, trivial, ?_⟩
    simp [countDeletes, List.count_cons, List.count_nil]

/-- Claim C6 witness: concrete no-trial user, create succeeds, persistence
fails. -/
theorem c6_witness :
    ((grant_subscription ⟨[⟨2, "u", "f", none, false, none, none, none⟩], []⟩
        0 2 ⟨true, true, some ⟨"cidX", "10.10.10.4", "cfgX", "pkX"⟩, false⟩).1 =
      ⟨[⟨2, "u", "f", none, false, none, none, none⟩], []⟩ ∧
    (grant_subscription ⟨[⟨2, "u", "f", none, false, none, none, none⟩], []⟩
        0 2 ⟨true, true, some ⟨"cidX", "10.10.10.4", "cfgX", "pkX"⟩, false⟩).2.2 =
      SubOutcome.errorCaught ∧
    countDeletes "cidX"
      (grant_subscription ⟨[⟨2, "u", "f", none, false, none, none, none⟩], []⟩
        0 2 ⟨true, true, some ⟨"cidX", "10.10.10.4", "cfgX", "pkX"⟩, false⟩).2.1 = 0) :=
  (c6_failure_semantics ⟨[⟨2, "u", "f", none, false, none, none, none⟩], []⟩ 0 2
      ⟨true, true, some ⟨"cidX", "10.10.10.4", "cfgX", "pkX"⟩, false⟩).2.1
    ⟨"cidX", "10.10.10.4", "cfgX", "pkX"⟩ rfl rfl rfl (by decide)

/-- Claim C4: along every sequence of trial-grant store operations starting
from the empty table, each user holds at most one `temp_configs` row (hence at
most one active one) at any instant, and `add_temp_config` first deletes any
existing row of the user, so right after a creation the user's rows are
exactly the freshly inserted one. -/
theorem c4_one_trial_row_per_user (ops : List TempOp) (uid : Nat) :
    tempRowCount (runTempOps ops) uid ≤ 1 ∧
    activeTempCount (runTempOps ops) uid ≤ 1 ∧
    ∀ (tcs : List TempRow) (now : Int) (cfg ip pk : String) (cid : Option String),
      (add_temp_config tcs now uid cfg ip pk cid).filter
          (fun r => r.user_id == uid) =
        [⟨uid, cfg, ip, pk, cid, now, now + 10, true⟩] := by
  have hrun : tempRowCount (runTempOps ops) uid ≤ 1 :=
    runTempOps_inv ops [] (fun u => by simp [tempRowCount]) uid
  refine ⟨hrun, Nat.le_trans (activeTempCount_le _ uid) hrun, ?_⟩
  intro tcs now cfg ip pk cid
  rw [add_temp_config, List.filter_append]
  have h0 : (tcs.filter fun r => !(r.user_id == uid)).filter
      (fun r => r.user_id == uid) = [] := by
    rw [List.filter_filter]
    rw [show (fun (a : TempRow) => a.user_id == uid && !(a.user_id == uid)) =
        (fun _ => false) from funext fun a => by cases a.user_id == uid <;> rfl]
    exact List.filter_false tcs
  rw [h0]
  simp

/-- Claim C9: on a failure-free snapshot, `get_next_available_ip` scans the
pool `10.10.10.2` .. `10.10.10.254` in ascending order (thereby skipping the
network address `10.10.10.0` and the gateway `10.10.10.1`), returns the first
address the in-use check reports free, and returns `none` when every pool
address is in use.  (Determinism holds because the scan is a pure function of
the snapshot.) -/
theorem c9_first_free_ip (s : WgState) (hr : s.runtimeRaises = false)
    (_hex : s.runtimeExitOk = true) (hc : s.configReadOk = true) :
    (∀ ip, get_next_available_ip s = some ip →
      ∃ i, 2 ≤ i ∧ i ≤ 254 ∧ ip = mkIp i ∧ is_ip_in_use s ip = false ∧
        ∀ j, 2 ≤ j → j < i → is_ip_in_use s (mkIp j) = true) ∧
    ((∀ i, 2 ≤ i → i ≤ 254 → is_ip_in_use s (mkIp i) = true) →
      get_next_available_ip s = none) :=
  ⟨get_next_characterization s hr hc, get_next_none_of_all_used s hr hc⟩

/-- Claim C9 witness: a concrete failure-free snapshot with two peers. -/
theorem c9_witness :
    (∀ ip, get_next_available_ip
        ⟨[("k1", "10.10.10.2")], [("k2", "10.10.10.3")], false, true, true, true⟩ = some ip →
      ∃ i, 2 ≤ i ∧ i ≤ 254 ∧ ip = mkIp i ∧
        is_ip_in_use ⟨[("k1", "10.10.10.2")], [("k2", "10.10.10.3")], false, true, true, true⟩
          ip = false ∧
        ∀ j, 2 ≤ j → j < i →
          is_ip_in_use ⟨[("k1", "10.10.10.2")], [("k2", "10.10.10.3")], false, true, true, true⟩
            (mkIp j) = true) ∧
    ((∀ i, 2 ≤ i → i ≤ 254 →
        is_ip_in_use ⟨[("k1", "10.10.10.2")], [("k2", "10.10.10.3")], false, true, true, true⟩
          (mkIp i) = true) →
      get_next_available_ip
        ⟨[("k1", "10.10.10.2")], [("k2", "10.10.10.3")], false, true, true, true⟩ = none) :=
  c9_first_free_ip ⟨[("k1", "10.10.10.2")], [("k2", "10.10.10.3")], false, true, true, true⟩
    rfl rfl rfl

/-- Claim C2 counterexample: user 1's persisted active subscription holds
`10.10.10.2` (it is in the spec's `usedAddresses` union), but the live peer
table and the config file are empty, and `get_next_available_ip` — which never
consults the persistence layer — returns exactly that address as free. -/
theorem c2_counterexample :
    "10.10.10.2" ∈ spec_usedAddresses
        [⟨1, "u", "f", some 100, true, some "cfg", some "10.10.10.2", some "cid"⟩] [] 0
        ⟨[], [], false, true, true, true⟩ ∧
    get_next_available_ip ⟨[], [], false, true, true, true⟩ = some "10.10.10.2" := by
  exact ⟨by decide, by decide⟩

/-- Claim C2 (amended): the used-address set consulted by the allocator is the
union of the live peer table and the on-disk backend configuration only; the
persistence layer's active Users and TrialGrants are not consulted, and a
returned address is merely guaranteed absent from those two sources. -/
theorem c2_used_set_is_live_and_config (s : WgState) (hr : s.runtimeRaises = false)
    (hex : s.runtimeExitOk = true) (hc : s.configReadOk = true)
    (he : s.configExists = true) :
    (∀ ip, is_ip_in_use s ip =
      ((runtimeIps s).contains ip || (configIps s).contains ip)) ∧
    (∀ ip, get_next_available_ip s = some ip →
      (runtimeIps s).contains ip = false ∧ (configIps s).contains ip = false) := by
  have hls : liveShownIps s = runtimeIps s := by
    rw [liveShownIps, if_pos hex]
  have hunion : ∀ ip, is_ip_in_use s ip =
      ((runtimeIps s).contains ip || (configIps s).contains ip) := by
    intro ip
    cases hcon : (runtimeIps s).contains ip with
    | true =>
      have hm := (contains_true_iff _ _).mp hcon
      simp [is_ip_in_use, hls, hr, hc, he, hm]
    | false =>
      have hnm : ip ∉ runtimeIps s := by
        simp only [List.elem_eq_mem, decide_eq_false_iff_not] at hcon
        exact hcon
      simp [is_ip_in_use, hls, hr, hc, he, hnm]
  refine ⟨hunion, fun ip h => ?_⟩
  obtain ⟨i, _, _, _, hfree, _⟩ := get_next_characterization s hr hc ip h
  rw [hunion ip] at hfree
  exact ⟨(Bool.or_eq_false_iff.mp hfree).1, (Bool.or_eq_false_iff.mp hfree).2⟩

/-- Claim C2 witness: a concrete failure-free snapshot; the allocation result
avoids both the live table and the config file. -/
theorem c2_witness :
    (∀ ip, is_ip_in_use ⟨[("k1", "10.10.10.2")], [("k2", "10.10.10.4")], false, true, true, true⟩
        ip =
      ((runtimeIps ⟨[("k1", "10.10.10.2")], [("k2", "10.10.10.4")], false, true, true, true⟩).contains ip ||
       (configIps ⟨[("k1", "10.10.10.2")], [("k2", "10.10.10.4")], false, true, true, true⟩).contains ip)) ∧
    (∀ ip, get_next_available_ip
        ⟨[("k1", "10.10.10.2")], [("k2", "10.10.10.4")], false, true, true, true⟩ = some ip →
      (runtimeIps ⟨[("k1", "10.10.10.2")], [("k2", "10.10.10.4")], false, true, true, true⟩).contains ip = false ∧
      (configIps ⟨[("k1", "10.10.10.2")], [("k2", "10.10.10.4")], false, true, true, true⟩).contains ip = false) :=
  c2_used_set_is_live_and_config
    ⟨[("k1", "10.10.10.2")], [("k2", "10.10.10.4")], false, true, true, true⟩ rfl rfl rfl rfl

/-- Claim C5 counterexample: on an empty backend, `add_peer` with a valid key
and a free address registers the peer live (`wg set` succeeds), the persistent
config update fails, and the function returns `false` with the live
registration still present and the config unchanged — live state holds a peer
the persisted configuration lacks. -/
theorem c5_counterexample :
    add_peer ⟨[], [], false, true, true, true⟩ "pubk" "10.10.10.2" true true true false =
      (false, ⟨[("pubk", "10.10.10.2")], [], false, true, true, true⟩) ∧
    ("pubk", "10.10.10.2") ∈
      (add_peer ⟨[], [], false, true, true, true⟩ "pubk" "10.10.10.2" true true true false).2.runtimePeers ∧
    ("pubk", "10.10.10.2") ∉
      (add_peer ⟨[], [], false, true, true, true⟩ "pubk" "10.10.10.2" true true true false).2.configPeers := by
  exact ⟨by decide, by decide, by decide⟩

/-- Claim C5 (amended): `add_peer` performs live registration first and the
persistent-config update second (a config change implies the live
registration happened), but on a failed persistent-config update it returns
the error *without* removing the live registration, so the live state can
hold a peer the persisted configuration lacks. -/
theorem c5_no_rollback_on_config_failure (s : WgState) (pub ip : String)
    (hnew : (list_peers s).contains pub = false)
    (hfree : is_ip_in_use s ip = false) :
    add_peer s pub ip true true true false =
      (false, { s with runtimePeers := s.runtimePeers ++ [(pub, ip)] }) ∧
    ∀ (kv iv ws cu : Bool),
      (add_peer s pub ip kv iv ws cu).2.configPeers ≠ s.configPeers →
      (add_peer s pub ip kv iv ws cu).2.runtimePeers =
        s.runtimePeers ++ [(pub, ip)] := by
  constructor
  · have hnm : pub ∉ list_peers s := by
      simp only [List.elem_eq_mem, decide_eq_false_iff_not] at hnew
      exact hnew
    rw [add_peer]
    simp [hnm, hfree]
  · intro kv iv ws cu h
    rw [add_peer] at h ⊢
    by_cases h1 : (!kv || !iv) = true
    · rw [if_pos h1] at h; exact absurd rfl h
    · rw [if_neg h1] at h ⊢
      by_cases h2 : (list_peers s).contains pub = true
      · rw [if_pos h2] at h; exact absurd rfl h
      · rw [if_neg h2] at h ⊢
        by_cases h3 : is_ip_in_use s ip = true
        · rw [if_pos h3] at h; exact absurd rfl h
        · rw [if_neg h3] at h ⊢
          by_cases h4 : (!ws) = true
          · rw [if_pos h4] at h; exact absurd rfl h
          · rw [if_neg h4] at h ⊢
            cases cu with
            | true => rfl
            | false => exact absurd rfl h

/-- Claim C5 witness: concrete empty backend, fresh key, free address, failing
config update. -/
theorem c5_witness :
    (add_peer ⟨[], [], false, true, true, true⟩ "pubk2" "10.10.10.9" true true true false =
      (false, { (⟨[], [], false, true, true, true⟩ : WgState) with
                  runtimePeers := ([] : List (String × String)) ++ [("pubk2", "10.10.10.9")] }) ∧
    ∀ (kv iv ws cu : Bool),
      (add_peer ⟨[], [], false, true, true, true⟩ "pubk2" "10.10.10.9" kv iv ws cu).2.configPeers ≠
        (⟨[], [], false, true, true, true⟩ : WgState).configPeers →
      (add_peer ⟨[], [], false, true, true, true⟩ "pubk2" "10.10.10.9" kv iv ws cu).2.runtimePeers =
        ([] : List (String × String)) ++ [("pubk2", "10.10.10.9")]) :=
  c5_no_rollback_on_config_failure ⟨[], [], false, true, true, true⟩ "pubk2" "10.10.10.9"
    (by decide) (by decide)

end SellingBot
